import Mathlib

/-!
Verification of the benchmark aggregation and comparative-delta logic of the
report-generator scripts (Project1 SIMD).  The Python sources operate on
pandas DataFrames with IEEE-754 floats; the embedding models

* a missing value (NaN produced by a failed coercion or an empty reduction)
  as `none : Option ℝ`;
* the IEEE special values that the delta computations can actually produce
  (NaN, +inf, -inf from division by zero and logarithms of non-positive
  numbers) with the explicit value domain `RVal`;
* pandas tables as Lean lists of typed rows, with the column set carried
  separately where column presence matters (a missing column access raises
  KeyError in pandas, modelled as `Except.error`).

Numeric behaviour is idealised over ℝ (exact arithmetic); the IEEE rules
that determine the structure of results (log of a negative number is NaN, log 0 is
-inf, exp of -inf is 0, x/0 is ±inf for x ≠ 0 and NaN for x = 0, and the
pandas mean skips NaN entries) are made explicit in the definitions.
-/

/-- IEEE-754-style extended value: NaN, plus and minus infinity, or a finite
real.  Used for the per-group delta columns, where division by zero and
infinite logarithms can occur. -/
inductive RVal where
  | nan : RVal
  | pinf : RVal
  | ninf : RVal
  | fin : ℝ → RVal

/-- Embed an optional real (missing = NaN) into `RVal`. -/
def ofOpt : Option ℝ → RVal
  | none => RVal.nan
  | some x => RVal.fin x

/-- IEEE-style division on `RVal` (signed zeros are not modelled; the zero
denominator is treated as +0, as produced by the scripts).  `x / 0` is +inf
for positive x, -inf for negative x, NaN for x = 0; NaN propagates. -/
noncomputable def rdiv : RVal → RVal → RVal
  | RVal.nan, _ => RVal.nan
  | _, RVal.nan => RVal.nan
  | RVal.pinf, RVal.pinf => RVal.nan
  | RVal.pinf, RVal.ninf => RVal.nan
  | RVal.ninf, RVal.pinf => RVal.nan
  | RVal.ninf, RVal.ninf => RVal.nan
  | RVal.pinf, RVal.fin b => if 0 ≤ b then RVal.pinf else RVal.ninf
  | RVal.ninf, RVal.fin b => if 0 ≤ b then RVal.ninf else RVal.pinf
  | RVal.fin _, RVal.pinf => RVal.fin 0
  | RVal.fin _, RVal.ninf => RVal.fin 0
  | RVal.fin a, RVal.fin b =>
      if b = 0 then (if a = 0 then RVal.nan else if 0 < a then RVal.pinf else RVal.ninf)
      else RVal.fin (a / b)

/-- Subtract the constant 1 (IEEE: infinities and NaN absorb). -/
noncomputable def rsub1 : RVal → RVal
  | RVal.nan => RVal.nan
  | RVal.pinf => RVal.pinf
  | RVal.ninf => RVal.ninf
  | RVal.fin a => RVal.fin (a - 1)

/-- Multiply by the positive constant 100 (IEEE: infinities and NaN absorb). -/
noncomputable def rmul100 : RVal → RVal
  | RVal.nan => RVal.nan
  | RVal.pinf => RVal.pinf
  | RVal.ninf => RVal.ninf
  | RVal.fin a => RVal.fin (a * 100)

/-- `(treatment / baseline - 1) * 100`: the per-metric percentage change used
both in `make_tail_report.build_tail_delta_summary`
(`(m[geo_tail] / m[geo_exact] - 1) * 100`) and, without the factor 100, in
`make_align_report.compute_summary_from_simd`. -/
noncomputable def deltaPct (base treat : RVal) : RVal :=
  rmul100 (rsub1 (rdiv treat base))

/-- `true` on NaN. -/
def RVal.isNan : RVal → Bool
  | RVal.nan => true
  | _ => false

/-- `true` on +inf. -/
def RVal.isPinf : RVal → Bool
  | RVal.pinf => true
  | _ => false

/-- `true` on -inf. -/
def RVal.isNinf : RVal → Bool
  | RVal.ninf => true
  | _ => false

/-- Finite part of an `RVal` (0 on the special values). -/
def RVal.finPart : RVal → ℝ
  | RVal.fin x => x
  | _ => 0

/-- pandas `Series.mean()` (the default `skipna=True`) over IEEE values:
NaN entries are dropped; the mean of no remaining entries is NaN; a remaining
+inf (resp. -inf) makes the mean +inf (resp. -inf), both together NaN;
otherwise the arithmetic mean of the finite entries. -/
noncomputable def rmean (l : List RVal) : RVal :=
  if (l.filter (fun v => !v.isNan)).isEmpty then RVal.nan
  else if (l.any RVal.isPinf) && (l.any RVal.isNinf) then RVal.nan
  else if l.any RVal.isPinf then RVal.pinf
  else if l.any RVal.isNinf then RVal.ninf
  else RVal.fin (((l.filter (fun v => !v.isNan)).map RVal.finPart).sum
                  / (l.filter (fun v => !v.isNan)).length)

/-- Inner join of two row lists on a key function: pandas
`pd.merge(left, right, on=key_cols)` (default inner join).  Each left row is
paired with every right row carrying an equal key; rows whose key is absent
from the other side are dropped. -/
def innerJoin {α K : Type} [DecidableEq K] (key : α → K) (l r : List α) :
    List (α × α) :=
  l.flatMap (fun a => (r.filter (fun b => decide (key b = key a))).map (fun b => (a, b)))

namespace MakeTail

/-- `geom_mean` of `make_tail_report.py`, lines 28-33: the samples kept after
`s.dropna()` and `s = s[s > 0]` (missing values and non-positive values
dropped). -/
noncomputable def keptPos (s : List (Option ℝ)) : List ℝ :=
  (s.filterMap id).filter (fun x => decide (0 < x))

/-- `geom_mean` of `make_tail_report.py`: drop missing and non-positive
samples; if none remain return NaN (`none`); otherwise
`exp(mean(log s))`. -/
noncomputable def geom_mean (s : List (Option ℝ)) : Option ℝ :=
  if (keptPos s).isEmpty then none
  else some (Real.exp (((keptPos s).map Real.log).sum / (keptPos s).length))

/-- One input row of `load_and_flag_tail` (only the fields the flagging step
reads). -/
structure SimdRow where
  dtype : String
  n : ℕ

/-- `load_and_flag_tail`, line 46: lanes is the f32 lane parameter exactly
when the dtype string equals "f32", and the f64 lane parameter otherwise. -/
def lanes (f32_lanes f64_lanes : ℕ) (r : SimdRow) : ℕ :=
  if r.dtype = "f32" then f32_lanes else f64_lanes

/-- `load_and_flag_tail`, line 47: `tail_flag = (n % lanes != 0).astype(int)`. -/
def tail_flag (f32_lanes f64_lanes : ℕ) (r : SimdRow) : ℕ :=
  if r.n % lanes f32_lanes f64_lanes r ≠ 0 then 1 else 0

end MakeTail

namespace MakeDtype

/-- Samples kept by `geomean` of `make_dtype_report.py`, lines 40-46:
`s.dropna().astype(float)` then `s = s[s > 0]`. -/
noncomputable def posOnly (s : List (Option ℝ)) : List ℝ :=
  (s.filterMap id).filter (fun x => decide (0 < x))

/-- `geomean` of `make_dtype_report.py`: identical semantics to
`MakeTail.geom_mean` (`len(s) == 0` gives NaN, otherwise
`exp(log(s).mean())`). -/
noncomputable def geomean (s : List (Option ℝ)) : Option ℝ :=
  if (posOnly s).isEmpty then none
  else some (Real.exp (((posOnly s).map Real.log).sum / (posOnly s).length))

end MakeDtype

namespace MakeAlign

/-- Samples of `gmean` (`make_align_report.py`, lines 42-46) whose logarithm
is not NaN: `np.log(1.0 + x)` is NaN exactly when `1 + x < 0`, and the
pandas `mean` (invoked through `np.mean` on a Series) skips NaN entries. -/
noncomputable def keptRel (s : List (Option ℝ)) : List ℝ :=
  (s.filterMap id).filter (fun x => decide (0 ≤ 1 + x))

/-- `gmean` of `make_align_report.py`: `s = series.dropna()`; NaN for an
empty series; otherwise `np.exp(np.mean(np.log(1.0 + s))) - 1.0` under IEEE
semantics: `log` of a negative argument is NaN and is skipped by the pandas
skipna mean; if every entry is skipped the mean is NaN (result `none`);
`log 0 = -inf` makes the mean -inf and `exp (-inf) = 0`, so a sample at
exactly -100 percent forces the result -1; otherwise the finite value
`exp (mean (log (1 + x))) - 1`. -/
noncomputable def gmean (s : List (Option ℝ)) : Option ℝ :=
  if (s.filterMap id).isEmpty then none
  else if (keptRel s).isEmpty then none
  else if (keptRel s).any (fun x => decide (1 + x = 0)) then some (-1)
  else some (Real.exp (((keptRel s).map (fun x => Real.log (1 + x))).sum
                        / (keptRel s).length) - 1)

/-- pandas `Series.mean()` over an optional-real column: skip missing
entries; the mean of none is missing. -/
noncomputable def pmean (l : List (Option ℝ)) : Option ℝ :=
  if (l.filterMap id).isEmpty then none
  else some ((l.filterMap id).sum / (l.filterMap id).length)

/-- One row of the align summary table: key fields, the three geometric-mean
delta-percentage columns (`geo_mean_delta_*_%`), and the sample count. -/
structure AlignRow where
  kernel : String
  dtype : String
  stride : ℤ
  delta_gflops_pct : Option ℝ
  delta_cpe_pct : Option ℝ
  delta_gibps_pct : Option ℝ
  samples : ℕ

/-- The synthetic row built by `append_overall_mean` of
`make_align_report.py`, lines 63-74: kernel "ALL", dtype "-", stride 0, the
arithmetic mean of each metric column, and the SUM of the sample counts. -/
noncomputable def new_row (df : List AlignRow) : AlignRow :=
  { kernel := "ALL"
    dtype := "-"
    stride := 0
    delta_gflops_pct := pmean (df.map AlignRow.delta_gflops_pct)
    delta_cpe_pct := pmean (df.map AlignRow.delta_cpe_pct)
    delta_gibps_pct := pmean (df.map AlignRow.delta_gibps_pct)
    samples := (df.map AlignRow.samples).sum }

/-- `append_overall_mean` of `make_align_report.py`: concatenate the copied
input table with the single synthetic overall row. -/
noncomputable def append_overall_mean (df : List AlignRow) : List AlignRow :=
  df ++ [new_row df]

end MakeAlign

namespace MakeTail

/-- One row of the per-group geometric-mean table `geo` built by
`build_tail_flag_geo`: group key (kernel, dtype, stride, tail_flag), the
sample count, and the three geometric-mean metric columns (each possibly
NaN). -/
structure GeoRow where
  kernel : String
  dtype : String
  stride : ℤ
  tail_flag : ℕ
  samples : ℕ
  geo_gflops : Option ℝ
  geo_cpe : Option ℝ
  geo_gibps : Option ℝ

/-- The shared merge key of `build_tail_delta_summary`:
`on=["kernel","dtype","stride"]`. -/
def tailKey (r : GeoRow) : String × String × ℤ :=
  (r.kernel, r.dtype, r.stride)

/-- One row of the tail delta summary produced by
`build_tail_delta_summary` (column selection on its final line). -/
structure TailRow where
  kernel : String
  dtype : String
  stride : ℤ
  delta_gflops_pct : RVal
  delta_cpe_pct : RVal
  delta_gibps_pct : RVal
  samples_exact : ℕ
  samples_tail : ℕ

/-- A DataFrame of tail-delta rows together with its column list; pandas
column access `df[c]` raises KeyError when `c` is not in the column list,
and the empty `pd.DataFrame()` has no columns at all. -/
structure TailDF where
  cols : List String
  rows : List TailRow

/-- The columns of a non-empty tail delta summary (the selection
`m[["kernel",...,"samples_tail"]]`). -/
def tailCols : List String :=
  ["kernel", "dtype", "stride", "delta_gflops_%", "delta_cpe_%",
   "delta_gibps_%", "samples_exact", "samples_tail"]

/-- One merged row of `build_tail_delta_summary`: the left (suffix `_exact`,
baseline) and right (suffix `_tail`, treatment) sides of the join, reduced
to `(geo_tail / geo_exact - 1) * 100` per metric. -/
noncomputable def mkDeltaRow (p : GeoRow × GeoRow) : TailRow :=
  { kernel := p.1.kernel
    dtype := p.1.dtype
    stride := p.1.stride
    delta_gflops_pct := deltaPct (ofOpt p.1.geo_gflops) (ofOpt p.2.geo_gflops)
    delta_cpe_pct := deltaPct (ofOpt p.1.geo_cpe) (ofOpt p.2.geo_cpe)
    delta_gibps_pct := deltaPct (ofOpt p.1.geo_gibps) (ofOpt p.2.geo_gibps)
    samples_exact := p.1.samples
    samples_tail := p.2.samples }

/-- `build_tail_delta_summary` of `make_tail_report.py`, lines 64-73:
split `geo` into the `tail_flag == 0` (exact) and `tail_flag == 1` (tail)
partitions, inner-join them on (kernel, dtype, stride); when the merge is
empty return the column-less `pd.DataFrame()`, otherwise the selected delta
columns. -/
noncomputable def build_tail_delta_summary (geo : List GeoRow) : TailDF :=
  if (innerJoin tailKey (geo.filter (fun r => r.tail_flag == 0))
        (geo.filter (fun r => r.tail_flag == 1))).isEmpty
  then { cols := [], rows := [] }
  else { cols := tailCols
         rows := (innerJoin tailKey (geo.filter (fun r => r.tail_flag == 0))
                    (geo.filter (fun r => r.tail_flag == 1))).map mkDeltaRow }

/-- The columns read by `append_overall_mean` of `make_tail_report.py`
(lines 79-82), in access order: the three delta means, then the two sample
sums. -/
def requiredTailCols : List String :=
  ["delta_gflops_%", "delta_cpe_%", "delta_gibps_%", "samples_exact",
   "samples_tail"]

/-- The synthetic overall row of `make_tail_report.append_overall_mean`:
kernel "ALL", dtype "-", stride 0, pandas means of the delta columns,
sums of the two sample-count columns. -/
noncomputable def mkAllRow (rows : List TailRow) : TailRow :=
  { kernel := "ALL"
    dtype := "-"
    stride := 0
    delta_gflops_pct := rmean (rows.map TailRow.delta_gflops_pct)
    delta_cpe_pct := rmean (rows.map TailRow.delta_cpe_pct)
    delta_gibps_pct := rmean (rows.map TailRow.delta_gibps_pct)
    samples_exact := (rows.map TailRow.samples_exact).sum
    samples_tail := (rows.map TailRow.samples_tail).sum }

/-- `append_overall_mean` of `make_tail_report.py`, lines 78-83: reading
`df[c]` for each required column raises KeyError (modelled as the error
carrying the first missing column name) when that column is absent —
in particular on the column-less empty DataFrame; otherwise the overall row
is appended by `pd.concat`. -/
noncomputable def append_overall_mean (df : TailDF) : Except String TailDF :=
  match requiredTailCols.find? (fun c => !(df.cols.contains c)) with
  | some c => Except.error c
  | none => Except.ok { cols := df.cols, rows := df.rows ++ [mkAllRow df.rows] }

end MakeTail

/-- A cell value of the loaded CSV tables, as the filter predicates see it:
a categorical string or an integral numeric.  (The filtered columns —
verified, misalign, stride, and the CLI-selected ones — hold integers in
the data; general floats are not needed to state the filtering claims.) -/
inductive PVal where
  | str : String → PVal
  | int : ℤ → PVal
deriving DecidableEq

/-- pandas `astype(str)` of a cell. -/
def PVal.asStr : PVal → String
  | PVal.str s => s
  | PVal.int n => toString n

/-- pandas elementwise `== (v : int)`: true only on an equal integral cell
(a string cell compares unequal to an int). -/
def PVal.eqInt : PVal → ℤ → Bool
  | PVal.int m, v => m == v
  | PVal.str _, _ => false

/-- A loaded table: its column list and its rows, each row a map from column
name to cell value. -/
structure PDF where
  cols : List String
  rows : List (String → PVal)

namespace MakeRoofline

/-- `pick_col(df, [key])` of `make_roofline_report.py`: the exact column
name if present, else the first case-insensitive match, else unresolved. -/
def pick_col (cols : List String) (key : String) : Option String :=
  if key ∈ cols then some key
  else cols.find? (fun c => c.toLower == key.toLower)

/-- Python `str.isdigit`: non-empty and all digit characters. -/
def isDigits (s : String) : Bool :=
  !s.isEmpty && s.all Char.isDigit

/-- The row predicate of one `key=val` token of `apply_filters`, given the
table columns: resolve the column through `pick_col` (defaulting to the key
itself); an absent column leaves every row in place (tolerant filtering);
a digit-only value compares as an integer, any other value compares against
`astype(str)`. -/
def tokPred (cols : List String) (kv : String × String) (r : String → PVal) :
    Bool :=
  if (pick_col cols kv.1).getD kv.1 ∈ cols then
    (if isDigits kv.2 then (r ((pick_col cols kv.1).getD kv.1)).eqInt (kv.2.toNat?.getD 0 : ℤ)
     else (r ((pick_col cols kv.1).getD kv.1)).asStr == kv.2)
  else true

/-- `apply_filters` of `make_roofline_report.py`, lines 124-141, after the
token string has been split into `key=val` pairs: fold over the predicates;
for each, resolve the column and, when the column exists, keep only the
rows whose cell matches (integer comparison for digit-only values, string
comparison otherwise); unknown columns are skipped. -/
def apply_filters (df : PDF) (preds : List (String × String)) : PDF :=
  preds.foldl
    (fun out kv =>
      if (pick_col out.cols kv.1).getD kv.1 ∈ out.cols then
        { cols := out.cols, rows := out.rows.filter (tokPred out.cols kv) }
      else out)
    df

end MakeRoofline

namespace MakeStride

/-- One conditional filtering step of `filter_ok`: when the named column is
present, keep the rows satisfying the predicate; otherwise leave the table
unchanged. -/
def condFilter (name : String) (p : (String → PVal) → Bool) (df : PDF) : PDF :=
  if name ∈ df.cols then { cols := df.cols, rows := df.rows.filter p } else df

/-- The columns `filter_ok` requires (`cols_need`). -/
def strideNeed : List String :=
  ["kernel", "dtype", "n", "stride", "gflops", "cpe"]

/-- `filter_ok` of `make_stride_report.py`, lines 33-44: filter
`verified == 1` when a verified column exists, then `misalign == 0` when a
misalign column exists, then `stride.isin([1,2,4,8])` when a stride column
exists; finally raise ValueError when any required column is missing. -/
def filter_ok (df : PDF) : Except String PDF :=
  let d3 :=
    condFilter "stride" (fun r => [(1 : ℤ), 2, 4, 8].any (fun v => (r "stride").eqInt v))
      (condFilter "misalign" (fun r => (r "misalign").eqInt 0)
        (condFilter "verified" (fun r => (r "verified").eqInt 1) df))
  if strideNeed.all (fun c => d3.cols.contains c) then Except.ok d3
  else Except.error "Missing columns"

end MakeStride

/-- Concrete geo table for the empty-join scenario: a single group that has
only `tail_flag = 0` rows, so the exact-vs-tail merge is empty. -/
noncomputable def c4geo : List MakeTail.GeoRow :=
  [{ kernel := "saxpy", dtype := "f32", stride := 1, tail_flag := 0,
     samples := 3, geo_gflops := some 1, geo_cpe := some 1, geo_gibps := some 1 }]

/-- Concrete align summary table with per-group delta percentages
10, -10, 5 and sample counts 4, 4, 2. -/
noncomputable def c7df : List MakeAlign.AlignRow :=
  [{ kernel := "saxpy", dtype := "f32", stride := 1,
     delta_gflops_pct := some 10, delta_cpe_pct := some 10,
     delta_gibps_pct := some 10, samples := 4 },
   { kernel := "saxpy", dtype := "f32", stride := 2,
     delta_gflops_pct := some (-10), delta_cpe_pct := some (-10),
     delta_gibps_pct := some (-10), samples := 4 },
   { kernel := "saxpy", dtype := "f32", stride := 4,
     delta_gflops_pct := some 5, delta_cpe_pct := some 5,
     delta_gibps_pct := some 5, samples := 2 }]

/-- Concrete table for the `filter_ok` idempotence witness: all required and
optional columns present, no rows. -/
def c8df : PDF :=
  { cols := ["kernel", "dtype", "n", "stride", "gflops", "cpe", "verified",
             "misalign"],
    rows := [] }

/-- Concrete tail summary table (all required columns, no rows) used to
witness the frame property of the tail `append_overall_mean`. -/
def c9tdf : MakeTail.TailDF :=
  { cols := MakeTail.tailCols, rows := [] }

/-- The output of `append_overall_mean` on `c9tdf`. -/
noncomputable def c9out : MakeTail.TailDF :=
  { cols := MakeTail.tailCols, rows := [MakeTail.mkAllRow []] }

lemma geom_mean_congr {s t : List (Option ℝ)}
    (h : MakeTail.keptPos s = MakeTail.keptPos t) :
    MakeTail.geom_mean s = MakeTail.geom_mean t := by
  rw [MakeTail.geom_mean, MakeTail.geom_mean, h]

lemma keptPos_append_none (s : List (Option ℝ)) :
    MakeTail.keptPos (s ++ [none]) = MakeTail.keptPos s := by
  simp [MakeTail.keptPos]

lemma keptPos_append_nonpos (s : List (Option ℝ)) (x : ℝ) (h : x ≤ 0) :
    MakeTail.keptPos (s ++ [some x]) = MakeTail.keptPos s := by
  have hd : decide (0 < x) = false := decide_eq_false (not_lt.mpr h)
  simp [MakeTail.keptPos, List.filter_append, hd]

lemma geom_mean_of_kept_ne (s : List (Option ℝ)) (h : MakeTail.keptPos s ≠ []) :
    MakeTail.geom_mean s =
      some (Real.exp (((MakeTail.keptPos s).map Real.log).sum /
        (MakeTail.keptPos s).length)) := by
  rw [MakeTail.geom_mean, if_neg (by simp [List.isEmpty_iff, h])]

lemma geom_mean_28 : MakeTail.geom_mean [some (2:ℝ), some 8] = some 4 := by
  have hk : MakeTail.keptPos [some (2:ℝ), some 8] = [2, 8] := by
    simp [MakeTail.keptPos, List.filter]
  have h8 : Real.log 8 = 3 * Real.log 2 := by
    rw [show (8:ℝ) = 2 ^ (3:ℕ) by norm_num, Real.log_pow]
    push_cast
    ring
  have h4 : Real.log 4 = 2 * Real.log 2 := by
    rw [show (4:ℝ) = 2 ^ (2:ℕ) by norm_num, Real.log_pow]
    push_cast
    ring
  rw [MakeTail.geom_mean, hk]
  rw [if_neg (by simp)]
  have hv : ((([(2:ℝ), 8]).map Real.log).sum / (([(2:ℝ), 8]).length : ℝ)) =
      Real.log 4 := by
    simp [h8, h4]
    ring
  rw [hv, Real.exp_log (by norm_num : (0:ℝ) < 4)]

lemma geom_mean_111 :
    MakeTail.geom_mean [some (1:ℝ), some 1, some 1] = some 1 := by
  have hk : MakeTail.keptPos [some (1:ℝ), some 1, some 1] = [1, 1, 1] := by
    simp [MakeTail.keptPos, List.filter]
  rw [MakeTail.geom_mean, hk, if_neg (by simp)]
  simp [Real.log_one, Real.exp_zero]

/-- C1: the geometric-mean reducer drops missing and non-positive samples,
returns exp of the mean logarithm of the remaining samples, and returns null
when none remain; concretely geom_mean [2, 8] = 4, geom_mean [1, 1, 1] = 1,
and geom_mean [2, 8, -1] = 4; the dtype-report reducer agrees with it. -/
theorem c1_geom_mean_reducer :
    (∀ s : List (Option ℝ), MakeTail.geom_mean (s ++ [none]) = MakeTail.geom_mean s) ∧
    (∀ (s : List (Option ℝ)) (x : ℝ), x ≤ 0 →
        MakeTail.geom_mean (s ++ [some x]) = MakeTail.geom_mean s) ∧
    (∀ s : List (Option ℝ), MakeTail.keptPos s = [] → MakeTail.geom_mean s = none) ∧
    (∀ s : List (Option ℝ), MakeTail.keptPos s ≠ [] →
        MakeTail.geom_mean s =
          some (Real.exp (((MakeTail.keptPos s).map Real.log).sum /
            (MakeTail.keptPos s).length))) ∧
    MakeTail.geom_mean [some 2, some 8] = some 4 ∧
    MakeTail.geom_mean [some 1, some 1, some 1] = some 1 ∧
    MakeTail.geom_mean [some 2, some 8, some (-1)] = some 4 ∧
    (∀ s : List (Option ℝ), MakeDtype.geomean s = MakeTail.geom_mean s) := by
  refine ⟨?_, ?_, ?_, ?_, geom_mean_28, geom_mean_111, ?_, fun s => rfl⟩
  · intro s
    exact geom_mean_congr (keptPos_append_none s)
  · intro s x h
    exact geom_mean_congr (keptPos_append_nonpos s x h)
  · intro s h
    rw [MakeTail.geom_mean, if_pos (by simp [h])]
  · exact geom_mean_of_kept_ne
  · calc MakeTail.geom_mean [some (2:ℝ), some 8, some (-1)]
        = MakeTail.geom_mean [some (2:ℝ), some 8] :=
          geom_mean_congr (keptPos_append_nonpos [some (2:ℝ), some 8] (-1) (by norm_num))
      _ = some 4 := geom_mean_28

/-- C1 witness: appending the non-positive sample -1 leaves the geometric
mean of [2, 8] unchanged. -/
theorem c1_witness :
    MakeTail.geom_mean ([some (2:ℝ), some 8] ++ [some (-1)]) =
      MakeTail.geom_mean [some (2:ℝ), some 8] :=
  c1_geom_mean_reducer.2.1 [some (2:ℝ), some 8] (-1) (by norm_num)

lemma keptRel_append_neg (s : List (Option ℝ)) (x : ℝ) (h : 1 + x < 0) :
    MakeAlign.keptRel (s ++ [some x]) = MakeAlign.keptRel s := by
  have hd : decide (0 ≤ 1 + x) = false := decide_eq_false (not_le.mpr h)
  simp [MakeAlign.keptRel, List.filter_append, hd]

lemma gmean_of_pos (s : List (Option ℝ)) (hne : s.filterMap id ≠ [])
    (hpos : ∀ x ∈ s.filterMap id, 0 < 1 + x) :
    MakeAlign.gmean s =
      some (Real.exp (((s.filterMap id).map (fun x => Real.log (1 + x))).sum /
        (s.filterMap id).length) - 1) := by
  have hk : MakeAlign.keptRel s = s.filterMap id := by
    rw [MakeAlign.keptRel]
    exact List.filter_eq_self.mpr (fun x hx => decide_eq_true (le_of_lt (hpos x hx)))
  rw [MakeAlign.gmean, hk]
  rw [if_neg (by simp [List.isEmpty_iff, hne])]
  rw [if_neg (by simp [List.isEmpty_iff, hne])]
  rw [if_neg ?hnany]
  case hnany =>
    intro hcon
    rw [List.any_eq_true] at hcon
    obtain ⟨x, hx, hdec⟩ := hcon
    rw [decide_eq_true_eq] at hdec
    exact absurd hdec (ne_of_gt (hpos x hx))

lemma gmean_00 : MakeAlign.gmean [some (0:ℝ), some 0] = some 0 := by
  rw [gmean_of_pos [some (0:ℝ), some 0] (by simp)
    (by intro x hx; simp at hx; norm_num [hx])]
  simp

lemma gmean_1_neghalf :
    MakeAlign.gmean [some (1:ℝ), some (-(1/2))] = some 0 := by
  rw [gmean_of_pos [some (1:ℝ), some (-(1/2))] (by simp)
    (by intro x hx; simp at hx; rcases hx with rfl | rfl <;> norm_num)]
  have hhalf : Real.log (1 + -(1/2) : ℝ) = -Real.log 2 := by
    rw [show (1 + -(1/2) : ℝ) = (2:ℝ)⁻¹ by norm_num, Real.log_inv]
  have h2 : Real.log (1 + 1 : ℝ) = Real.log 2 := by norm_num
  simp only [List.filterMap_cons, List.filterMap_nil, id, List.map_cons, List.map_nil,
    List.sum_cons, List.sum_nil, List.length_cons, List.length_nil, hhalf, h2]
  norm_num [Real.exp_zero]

/-- C5: the geometric-mean-of-relative-changes reducer, on samples whose
shifted values 1 + x are all positive, equals exp(mean(ln(1 + x))) - 1 over
the non-missing samples; concretely [0, 0] reduces to 0 and [1, -0.5]
reduces to 0. -/
theorem c5_gmean_formula :
    (∀ s : List (Option ℝ), s.filterMap id ≠ [] →
        (∀ x ∈ s.filterMap id, 0 < 1 + x) →
        MakeAlign.gmean s =
          some (Real.exp (((s.filterMap id).map (fun x => Real.log (1 + x))).sum /
            (s.filterMap id).length) - 1)) ∧
    MakeAlign.gmean [some 0, some 0] = some 0 ∧
    MakeAlign.gmean [some 1, some (-(1/2))] = some 0 :=
  ⟨gmean_of_pos, gmean_00, gmean_1_neghalf⟩

/-- C5 witness: the general formula instantiated at the two-sample sequence
[0, 0]. -/
theorem c5_witness :
    MakeAlign.gmean [some (0:ℝ), some 0] =
      some (Real.exp ((([some (0:ℝ), some 0].filterMap id).map
          (fun x => Real.log (1 + x))).sum /
        ([some (0:ℝ), some 0].filterMap id).length) - 1) :=
  c5_gmean_formula.1 [some (0:ℝ), some 0] (by simp)
    (by intro x hx; simp at hx; norm_num [hx])

lemma gmean_neg1 : MakeAlign.gmean [some (-1:ℝ)] = some (-1) := by
  have hk : MakeAlign.keptRel [some (-1:ℝ)] = [-1] := by
    simp [MakeAlign.keptRel, List.filter]
  rw [MakeAlign.gmean, hk]
  rw [if_neg (by simp)]
  rw [if_neg (by simp)]
  rw [if_pos (by simp)]

/-- C2 counterexample: the sample sequence [-1] (a relative change of
exactly -100 percent, so 1 + x = 0) does NOT give a null group result:
`np.log 0 = -inf`, the mean is -inf, `np.exp (-inf) = 0`, and the reducer
returns -1, contradicting the claim that any sample with 1 + x ≤ 0 makes
the group result null. -/
theorem c2_counterexample :
    MakeAlign.gmean [some (-1:ℝ)] = some (-1) ∧
    MakeAlign.gmean [some (-1:ℝ)] ≠ none := by
  refine ⟨gmean_neg1, ?_⟩
  rw [gmean_neg1]
  simp

/-- C2 (amended): samples with 1 + x < 0 contribute NaN logarithms that the
skipna mean silently drops, so they do not null the group unless every
sample is such (then the result is null); a sample at exactly -100 percent
(1 + x = 0), with no sample strictly below, forces the group result to the
non-null value -1; the reduction is total (never a crash). -/
theorem c2_amended :
    (∀ s : List (Option ℝ), s.filterMap id ≠ [] →
        (∀ x ∈ s.filterMap id, 1 + x < 0) → MakeAlign.gmean s = none) ∧
    (∀ (s : List (Option ℝ)) (x : ℝ), 1 + x < 0 →
        MakeAlign.gmean (s ++ [some x]) = MakeAlign.gmean s) ∧
    (∀ s : List (Option ℝ), (∀ x ∈ s.filterMap id, 0 ≤ 1 + x) →
        (∃ x ∈ s.filterMap id, 1 + x = 0) → MakeAlign.gmean s = some (-1)) := by
  refine ⟨?_, ?_, ?_⟩
  · intro s hne hall
    have hk : MakeAlign.keptRel s = [] := by
      rw [MakeAlign.keptRel, List.filter_eq_nil_iff]
      intro x hx
      rw [decide_eq_true_eq]
      exact not_le.mpr (hall x hx)
    rw [MakeAlign.gmean, hk]
    rw [if_neg (by simp [List.isEmpty_iff, hne])]
    rw [if_pos (by simp)]
  · intro s x h
    have hk := keptRel_append_neg s x h
    have hf : (s ++ [some x]).filterMap id = s.filterMap id ++ [x] := by simp
    rw [MakeAlign.gmean, MakeAlign.gmean, hk, hf]
    by_cases he : s.filterMap id = []
    · have hkr : MakeAlign.keptRel s = [] := by simp [MakeAlign.keptRel, he]
      rw [he, hkr]
      simp
    · have h1 : ((s.filterMap id ++ [x]).isEmpty) = false := by simp
      have h2 : ((s.filterMap id).isEmpty) = false := by
        simp [List.isEmpty_iff, he]
      rw [h1, h2]
  · intro s hall hex
    obtain ⟨x0, hx0, hz⟩ := hex
    have hne : s.filterMap id ≠ [] := by
      intro he
      rw [he] at hx0
      exact absurd hx0 (List.not_mem_nil x0)
    have hk : MakeAlign.keptRel s = s.filterMap id := by
      rw [MakeAlign.keptRel]
      exact List.filter_eq_self.mpr (fun x hx => decide_eq_true (hall x hx))
    rw [MakeAlign.gmean, hk]
    rw [if_neg (by simp [List.isEmpty_iff, hne])]
    rw [if_neg (by simp [List.isEmpty_iff, hne])]
    rw [if_pos (List.any_eq_true.mpr ⟨x0, hx0, decide_eq_true hz⟩)]

/-- C2 witness: a sequence whose only sample is below -100 percent reduces
to a null result. -/
theorem c2_witness : MakeAlign.gmean [some (-2:ℝ)] = none :=
  c2_amended.1 [some (-2:ℝ)] (by simp)
    (by intro x hx; simp at hx; norm_num [hx])

/-- C3 counterexample: a paired delta row whose baseline metric is exactly 0
and whose treatment metric is 1 yields +inf (numpy division by zero), not a
null relative change. -/
theorem c3_counterexample :
    deltaPct (RVal.fin 0) (RVal.fin 1) = RVal.pinf ∧
    deltaPct (RVal.fin 0) (RVal.fin 1) ≠ RVal.nan := by
  have h : deltaPct (RVal.fin 0) (RVal.fin 1) = RVal.pinf := by
    norm_num [deltaPct, rdiv, rsub1, rmul100]
  refine ⟨h, ?_⟩
  rw [h]
  intro hc
  exact RVal.noConfusion hc

/-- C3 (amended): a null (NaN) baseline or treatment metric propagates to a
null relative change; a nonzero finite baseline gives the finite value
(t / b - 1) * 100; a zero baseline with a positive treatment gives +inf
(never a crash, but not null); inside the pipeline a zero baseline cannot
come from the geometric-mean aggregation, whose non-null outputs are
strictly positive. -/
theorem c3_amended :
    (∀ t : RVal, deltaPct RVal.nan t = RVal.nan) ∧
    (∀ b : RVal, deltaPct b RVal.nan = RVal.nan) ∧
    (∀ b t : ℝ, b ≠ 0 →
        deltaPct (RVal.fin b) (RVal.fin t) = RVal.fin ((t / b - 1) * 100)) ∧
    (∀ (s : List (Option ℝ)) (v : ℝ), MakeTail.geom_mean s = some v → 0 < v) ∧
    (∀ t : ℝ, 0 < t → deltaPct (RVal.fin 0) (RVal.fin t) = RVal.pinf) := by
  refine ⟨?_, ?_, ?_, ?_, ?_⟩
  · intro t
    cases t <;> simp [deltaPct, rdiv, rsub1, rmul100]
  · intro b
    cases b <;> simp [deltaPct, rdiv, rsub1, rmul100]
  · intro b t h
    simp [deltaPct, rdiv, rsub1, rmul100, h]
  · intro s v h
    rw [MakeTail.geom_mean] at h
    by_cases he : (MakeTail.keptPos s).isEmpty
    · rw [if_pos he] at h
      exact absurd h (by simp)
    · rw [if_neg he] at h
      rw [Option.some_inj] at h
      rw [← h]
      exact Real.exp_pos _
  · intro t h
    simp [deltaPct, rdiv, rsub1, rmul100, h, h.ne']

/-- C3 witness: the finite-baseline formula instantiated at baseline 2 and
treatment 3. -/
theorem c3_witness :
    deltaPct (RVal.fin 2) (RVal.fin 3) = RVal.fin ((3 / 2 - 1) * 100) :=
  c3_amended.2.2.1 2 3 (by norm_num)

/-- C4: a geo table whose only group has exclusively tail_flag = 0 rows
gives an empty exact-vs-tail join; `build_tail_delta_summary` then returns
the column-less empty DataFrame, and the downstream `append_overall_mean`
raises KeyError on its first column access (`df["delta_gflops_%"]`) instead
of producing an empty valid output. -/
theorem c4_empty_join_downstream :
    MakeTail.build_tail_delta_summary c4geo =
      ({ cols := [], rows := [] } : MakeTail.TailDF) ∧
    MakeTail.append_overall_mean (MakeTail.build_tail_delta_summary c4geo) =
      Except.error "delta_gflops_%" := by
  constructor
  · rfl
  · rfl

lemma innerJoin_keys {α K : Type} [DecidableEq K] (key : α → K)
    (l r : List α) (k : K) :
    (∃ p ∈ innerJoin key l r, key p.1 = k) ↔
      ((∃ a ∈ l, key a = k) ∧ (∃ b ∈ r, key b = k)) := by
  constructor
  · rintro ⟨p, hp, hk⟩
    rw [innerJoin, List.mem_flatMap] at hp
    obtain ⟨a, ha, hpa⟩ := hp
    rw [List.mem_map] at hpa
    obtain ⟨b, hb, rfl⟩ := hpa
    rw [List.mem_filter] at hb
    obtain ⟨hbr, hkey⟩ := hb
    rw [decide_eq_true_eq] at hkey
    exact ⟨⟨a, ha, hk⟩, ⟨b, hbr, by rw [hkey]; exact hk⟩⟩
  · rintro ⟨⟨a, ha, hak⟩, ⟨b, hb, hbk⟩⟩
    refine ⟨(a, b), ?_, hak⟩
    rw [innerJoin, List.mem_flatMap]
    exact ⟨a, ha, List.mem_map.mpr
      ⟨b, List.mem_filter.mpr ⟨hb, decide_eq_true (hbk.trans hak.symm)⟩, rfl⟩⟩

/-- C6: the paired result of the inner join contains exactly the group keys
present in BOTH sides, unmatched keys being silently dropped; concretely,
joining key sets A, B against B, C yields exactly the key B. -/
theorem c6_inner_join_keys :
    (∀ (α K : Type) [DecidableEq K] (key : α → K) (l r : List α) (k : K),
        (∃ p ∈ innerJoin key l r, key p.1 = k) ↔
          ((∃ a ∈ l, key a = k) ∧ (∃ b ∈ r, key b = k))) ∧
    (innerJoin (α := String × ℕ) Prod.fst [("A", 1), ("B", 2)]
        [("B", 3), ("C", 4)]).map (fun p => p.1.1) = ["B"] := by
  constructor
  · intro α K inst key l r k
    exact innerJoin_keys key l r k
  · rfl

/-- C7 counterexample: the appended overall row sets the categorical key
field dtype to the wildcard "-", not to the sentinel "ALL", contradicting
the claim that every categorical key field carries the sentinel "ALL". -/
theorem c7_counterexample :
    (MakeAlign.new_row c7df).dtype = "-" ∧
    ¬ (MakeAlign.new_row c7df).dtype = "ALL" := by
  refine ⟨rfl, ?_⟩
  intro hc
  rw [show (MakeAlign.new_row c7df).dtype = "-" from rfl] at hc
  exact absurd hc (by decide)

/-- C7 (amended): the appender adds exactly one synthetic row after the
table, with kernel set to the sentinel "ALL", dtype to the wildcard "-",
stride to 0, each summary column to the unweighted arithmetic mean of that
column over the existing rows, and the sample count to the SUM of all rows'
counts; for deltas [10, -10, 5] with counts [4, 4, 2] the appended mean is
5/3 and the appended count is 10. -/
theorem c7_overall_row :
    (∀ df : List MakeAlign.AlignRow, df ≠ [] →
        MakeAlign.append_overall_mean df = df ++ [MakeAlign.new_row df]) ∧
    (∀ df : List MakeAlign.AlignRow,
        (MakeAlign.new_row df).kernel = "ALL" ∧
        (MakeAlign.new_row df).dtype = "-" ∧
        (MakeAlign.new_row df).stride = 0 ∧
        (MakeAlign.new_row df).delta_gflops_pct =
          MakeAlign.pmean (df.map MakeAlign.AlignRow.delta_gflops_pct) ∧
        (MakeAlign.new_row df).delta_cpe_pct =
          MakeAlign.pmean (df.map MakeAlign.AlignRow.delta_cpe_pct) ∧
        (MakeAlign.new_row df).delta_gibps_pct =
          MakeAlign.pmean (df.map MakeAlign.AlignRow.delta_gibps_pct) ∧
        (MakeAlign.new_row df).samples =
          (df.map MakeAlign.AlignRow.samples).sum) ∧
    (MakeAlign.new_row c7df).delta_gflops_pct = some (5 / 3) ∧
    (MakeAlign.new_row c7df).samples = 10 := by
  refine ⟨fun df _ => rfl, fun df => ⟨rfl, rfl, rfl, rfl, rfl, rfl, rfl⟩, ?_, rfl⟩
  show MakeAlign.pmean (c7df.map MakeAlign.AlignRow.delta_gflops_pct) = some (5 / 3)
  have hm : c7df.map MakeAlign.AlignRow.delta_gflops_pct =
      [some 10, some (-10), some 5] := rfl
  rw [MakeAlign.pmean, hm]
  rw [if_neg (by simp)]
  have hfm : List.filterMap id [some (10:ℝ), some (-10), some 5] = [10, -10, 5] := by
    simp
  rw [hfm]
  norm_num

/-- C7 witness: the append equation instantiated at the three-row concrete
table. -/
theorem c7_witness :
    MakeAlign.append_overall_mean c7df = c7df ++ [MakeAlign.new_row c7df] :=
  c7_overall_row.1 c7df (by simp [c7df])

/-- C9: the overall-summary appenders return the input rows unchanged and
in order (the embedding is pure, so the input value is untouched; the output
carries the input as its prefix), followed by exactly one synthetic row;
this holds for the align appender unconditionally and for the tail appender
whenever it succeeds. -/
theorem c9_append_frame :
    (∀ df : List MakeAlign.AlignRow,
        (MakeAlign.append_overall_mean df).take df.length = df ∧
        (MakeAlign.append_overall_mean df).length = df.length + 1) ∧
    (∀ df out : MakeTail.TailDF,
        MakeTail.append_overall_mean df = Except.ok out →
        out.cols = df.cols ∧ out.rows.take df.rows.length = df.rows ∧
          out.rows.length = df.rows.length + 1) := by
  constructor
  · intro df
    constructor
    · rw [MakeAlign.append_overall_mean]
      exact List.take_left df [MakeAlign.new_row df]
    · rw [MakeAlign.append_overall_mean]
      simp
  · intro df out h
    rw [MakeTail.append_overall_mean] at h
    rcases hf : MakeTail.requiredTailCols.find? (fun c => !(df.cols.contains c)) with _ | c
    · rw [hf] at h
      rw [Except.ok.injEq] at h
      rw [← h]
      refine ⟨rfl, List.take_left df.rows [MakeTail.mkAllRow df.rows], by simp⟩
    · rw [hf] at h
      exact absurd h (by simp)

/-- C9 witness: the tail appender on the concrete well-formed empty table
returns its rows as the prefix with one appended row. -/
theorem c9_witness :
    c9out.cols = c9tdf.cols ∧
    c9out.rows.take c9tdf.rows.length = c9tdf.rows ∧
    c9out.rows.length = c9tdf.rows.length + 1 :=
  c9_append_frame.2 c9tdf c9out rfl

/-- C10: in the tail flagging step the lane count is the f32 lane parameter
exactly when the dtype string equals "f32" and the f64 lane parameter for
every other dtype (including "int32"), and the tail flag is 1 exactly when
n mod lanes is nonzero, 0 otherwise. -/
theorem c10_lanes_tail_flag :
    (∀ (fL dL : ℕ) (r : MakeTail.SimdRow), r.dtype = "f32" →
        MakeTail.lanes fL dL r = fL) ∧
    (∀ (fL dL : ℕ) (r : MakeTail.SimdRow), r.dtype ≠ "f32" →
        MakeTail.lanes fL dL r = dL) ∧
    (∀ (fL dL n : ℕ), MakeTail.lanes fL dL { dtype := "int32", n := n } = dL) ∧
    (∀ (fL dL : ℕ) (r : MakeTail.SimdRow),
        (MakeTail.tail_flag fL dL r = 1 ↔ r.n % MakeTail.lanes fL dL r ≠ 0) ∧
        (MakeTail.tail_flag fL dL r = 0 ↔ r.n % MakeTail.lanes fL dL r = 0)) := by
  refine ⟨?_, ?_, ?_, ?_⟩
  · intro fL dL r h
    rw [MakeTail.lanes, if_pos h]
  · intro fL dL r h
    rw [MakeTail.lanes, if_neg h]
  · intro fL dL n
    have h : ({ dtype := "int32", n := n } : MakeTail.SimdRow).dtype ≠ "f32" := by
      show ¬ ("int32" = "f32")
      decide
    rw [MakeTail.lanes, if_neg h]
  · intro fL dL r
    rw [MakeTail.tail_flag]
    by_cases h : r.n % MakeTail.lanes fL dL r = 0 <;> simp [h]

/-- C10 witness: with lane parameters 8 and 4, an f32 row gets 8 lanes. -/
theorem c10_witness :
    MakeTail.lanes 8 4 { dtype := "f32", n := 10 } = 8 :=
  c10_lanes_tail_flag.1 8 4 { dtype := "f32", n := 10 } rfl

lemma apply_step_eq (df : PDF) (kv : String × String) :
    (if (MakeRoofline.pick_col df.cols kv.1).getD kv.1 ∈ df.cols then
       { cols := df.cols,
         rows := df.rows.filter (MakeRoofline.tokPred df.cols kv) }
     else df)
    = ({ cols := df.cols,
         rows := df.rows.filter (MakeRoofline.tokPred df.cols kv) } : PDF) := by
  by_cases h : (MakeRoofline.pick_col df.cols kv.1).getD kv.1 ∈ df.cols
  · rw [if_pos h]
  · rw [if_neg h]
    have hrows : df.rows.filter (MakeRoofline.tokPred df.cols kv) = df.rows :=
      List.filter_eq_self.mpr
        (fun r _ => by simp only [MakeRoofline.tokPred]; rw [if_neg h])
    rw [hrows]

lemma apply_filters_eq (preds : List (String × String)) (df : PDF) :
    MakeRoofline.apply_filters df preds =
      { cols := df.cols,
        rows := df.rows.filter
          (fun r => preds.all (fun kv => MakeRoofline.tokPred df.cols kv r)) } := by
  induction preds generalizing df with
  | nil =>
      simp only [MakeRoofline.apply_filters, List.foldl_nil, List.all_nil]
      rw [List.filter_true]
  | cons kv ps ih =>
      simp only [MakeRoofline.apply_filters, List.foldl_cons]
      rw [apply_step_eq df kv]
      show MakeRoofline.apply_filters
        { cols := df.cols,
          rows := df.rows.filter (MakeRoofline.tokPred df.cols kv) } ps = _
      rw [ih]
      dsimp only
      rw [List.filter_filter]
      congr 1
      apply List.filter_congr
      intro r _
      rw [List.all_cons]
      exact Bool.and_comm _ _

lemma condFilter_cols (n : String) (p : (String → PVal) → Bool) (df : PDF) :
    (MakeStride.condFilter n p df).cols = df.cols := by
  rw [MakeStride.condFilter]
  split <;> rfl

lemma condFilter_sub (n : String) (p : (String → PVal) → Bool) (df : PDF) :
    ∀ r ∈ (MakeStride.condFilter n p df).rows, r ∈ df.rows := by
  rw [MakeStride.condFilter]
  split
  · intro r hr
    exact (List.mem_filter.mp hr).1
  · intro r hr
    exact hr

lemma condFilter_pass (n : String) (p : (String → PVal) → Bool) (df : PDF)
    (h : n ∈ df.cols) :
    ∀ r ∈ (MakeStride.condFilter n p df).rows, p r = true := by
  rw [MakeStride.condFilter, if_pos h]
  intro r hr
  exact (List.mem_filter.mp hr).2

lemma condFilter_id (n : String) (p : (String → PVal) → Bool) (df : PDF)
    (h : n ∈ df.cols → ∀ r ∈ df.rows, p r = true) :
    MakeStride.condFilter n p df = df := by
  rw [MakeStride.condFilter]
  by_cases hn : n ∈ df.cols
  · rw [if_pos hn, List.filter_eq_self.mpr (h hn)]
  · rw [if_neg hn]

/-- C8: filtering a table twice with the same predicate set yields the same
result table as filtering it once, for both the roofline predicate-token
filter (where unknown predicate fields are ignored) and the stride sample
filter. -/
theorem c8_filter_idempotent :
    (∀ (df : PDF) (preds : List (String × String)),
        MakeRoofline.apply_filters (MakeRoofline.apply_filters df preds) preds =
          MakeRoofline.apply_filters df preds) ∧
    (∀ df d : PDF, MakeStride.filter_ok df = Except.ok d →
        MakeStride.filter_ok d = Except.ok d) := by
  constructor
  · intro df preds
    rw [apply_filters_eq preds df, apply_filters_eq preds]
    dsimp only
    rw [List.filter_filter]
    congr 1
    apply List.filter_congr
    intro r _
    exact Bool.and_self _
  · intro df d h
    simp only [MakeStride.filter_ok] at h
    split at h
    case isTrue hcond =>
      rw [Except.ok.injEq] at h
      have hcols : d.cols = df.cols := by
        rw [← h, condFilter_cols, condFilter_cols, condFilter_cols]
      have hv : MakeStride.condFilter "verified"
          (fun r => (r "verified").eqInt 1) d = d := by
        apply condFilter_id
        intro hn r hr
        rw [← h] at hr
        have hr1 := condFilter_sub _ _ _ r hr
        have hr2 := condFilter_sub _ _ _ r hr1
        exact condFilter_pass _ _ _ (hcols ▸ hn) r hr2
      have hm : MakeStride.condFilter "misalign"
          (fun r => (r "misalign").eqInt 0) d = d := by
        apply condFilter_id
        intro hn r hr
        rw [← h] at hr
        have hr1 := condFilter_sub _ _ _ r hr
        have hn1 : "misalign" ∈ (MakeStride.condFilter "verified"
            (fun r => (r "verified").eqInt 1) df).cols := by
          rw [condFilter_cols]
          exact hcols ▸ hn
        exact condFilter_pass _ _ _ hn1 r hr1
      have hs : MakeStride.condFilter "stride"
          (fun r => [(1 : ℤ), 2, 4, 8].any (fun v => (r "stride").eqInt v)) d
          = d := by
        apply condFilter_id
        intro hn r hr
        rw [← h] at hr
        have hn2 : "stride" ∈ (MakeStride.condFilter "misalign"
            (fun r => (r "misalign").eqInt 0)
            (MakeStride.condFilter "verified"
              (fun r => (r "verified").eqInt 1) df)).cols := by
          rw [condFilter_cols, condFilter_cols]
          exact hcols ▸ hn
        exact condFilter_pass _ _ _ hn2 r hr
      rw [h] at hcond
      simp only [MakeStride.filter_ok]
      rw [hv, hm, hs, if_pos hcond]
    case isFalse hcond =>
      exact absurd h (by simp)

/-- C8 witness: on a concrete table carrying every required and optional
column and no rows, the stride filter succeeds and returns the table itself,
so filtering it again returns the same table. -/
theorem c8_witness : MakeStride.filter_ok c8df = Except.ok c8df :=
  c8_filter_idempotent.2 c8df c8df rfl
